import Mathlib

/-!
Shallow embedding of the Warnakala/stampinfo add-on sources
(`stampinfo/utils/utils_os.py`, `stampinfo/install/install_dependencies.py`,
`stampinfo/stampInfoSettings.py`) together with proofs of the claims about
them.  OS state (filesystem, network, admin rights, subprocess results) is
passed explicitly as environment records; exceptions that Python would
propagate are modelled with `Except`.
-/

set_option autoImplicit false

namespace StampInfo

/-- Value of `sys.platform` as inspected by the code. -/
inductive Platform
  | darwin
  | linux
  | win32
  | other (s : String)
deriving DecidableEq, Repr

/-- Outcome of one `urllib.request.urlopen` attempt at a given timeout:
the call returns normally, raises `urllib.error.URLError` (the only
exception the code catches), or raises some other exception. -/
inductive ProbeOutcome
  | ok
  | urlError
  | otherError
deriving DecidableEq, Repr

/-- The timeout ladder of `internet_on`, from
`for timeout in [1, 5, 10, 15]:` in `utils_os.py`. -/
def internetTimeouts : List Nat := [1, 5, 10, 15]

/-- Loop body of `internet_on`: walk the timeout list, returning on the
first successful probe, skipping (only) `URLError`, propagating any other
exception.  Alongside the result it records the list of timeouts actually
attempted, in order. -/
def internet_on_go (probe : Nat → ProbeOutcome) : List Nat → Except Unit Bool × List Nat
  | [] => (Except.ok false, [])
  | t :: rest =>
    match probe t with
    | ProbeOutcome.ok => (Except.ok true, [t])
    | ProbeOutcome.urlError =>
      let r := internet_on_go probe rest
      (r.1, t :: r.2)
    | ProbeOutcome.otherError => (Except.error (), [t])

/-- `internet_on` from `utils_os.py`: on macOS (`darwin`) it returns `True`
immediately without probing; otherwise it tries the probe URL with the
escalating timeouts.  First component: the returned value (or the
propagated exception); second component: the trace of attempted timeouts. -/
def internet_on (platform : Platform) (probe : Nat → ProbeOutcome) :
    Except Unit Bool × List Nat :=
  if platform = Platform.darwin then (Except.ok true, [])
  else internet_on_go probe internetTimeouts

/-- A subprocess invocation made by `open_folder`: either
`subprocess.check_call` with an argument list, or `subprocess.Popen`
with a command string. -/
inductive Invocation
  | checkCall (args : List String)
  | popen (cmd : String)
deriving DecidableEq, Repr

/-- `open_folder` from `utils_os.py`.  `str(Path(path))` on Windows is
modelled as the path string itself. -/
def open_folder (platform : Platform) (path : String) : Option Invocation :=
  if platform = Platform.darwin then
    some (Invocation.checkCall ["open", "--", path])
  else if platform = Platform.linux then
    some (Invocation.checkCall ["xdg-open", path])
  else if platform = Platform.win32 then
    some (Invocation.popen ("explorer \"" ++ path ++ "\""))
  else none

/-- A top-level entry of a directory, as seen by `os.listdir`.  A plain
file may be locked (so that `os.remove` raises); `os.remove` on a
subdirectory always raises. -/
inductive Entry
  | file (name : String) (locked : Bool)
  | dir (name : String)
deriving DecidableEq, Repr

/-- Whether `os.remove` succeeds on this entry. -/
def Entry.removable : Entry → Bool
  | Entry.file _ locked => !locked
  | Entry.dir _ => false

/-- State of the directory passed to `delete_folder`: whether
`os.path.exists` holds and, if so, its top-level entries. -/
structure FolderState where
  present : Bool
  entries : List Entry
deriving DecidableEq, Repr

/-- `delete_folder` from `utils_os.py`: if the path exists, try
`os.remove` on every listed entry (failures are caught and only printed),
then try `os.rmdir`, which succeeds exactly when the directory is now
empty (its failure is also caught and only printed). -/
def delete_folder (st : FolderState) : FolderState :=
  if st.present then
    let remaining := st.entries.filter (fun e => ! e.removable)
    if remaining.isEmpty then { present := false, entries := [] }
    else { present := true, entries := remaining }
  else st

/-! ## The dependency installer (`install_dependencies.py`) -/

/-- The OS/interpreter environment visible to one run of `install_library`
for one library.  Each field models the outcome of one observable call the
code makes. -/
structure InstallEnv where
  /-- `sys.platform`, consulted by `internet_on`. -/
  platform : Platform
  /-- Outcome of the network probe at each timeout, consulted by
  `internet_on`. -/
  probe : Nat → ProbeOutcome
  /-- `sys.executable`. -/
  pyExeFile : String
  /-- `module_can_be_imported(lib_name)` before the install. -/
  canImportBefore : Bool
  /-- `module_can_be_imported(lib_name)` after the pip run. -/
  canImportAfter : Bool
  /-- `is_admin()` (imported from `utils_os`; an OS query on the current
  process rights). -/
  isAdmin : Bool
  /-- `isfile(tmp_file)`: the marker file already exists in the
  site-packages directory. -/
  tmpFileExists : Bool
  /-- `os.remove(tmp_file)` succeeds (does not raise). -/
  removeSucceeds : Bool
  /-- `os.access(localPyDir, os.W_OK)`. -/
  dirWritable : Bool
  /-- Opening and writing the marker file succeeds (does not raise). -/
  createSucceeds : Bool
  /-- `returncode` of the `subprocess.run` pip invocation. -/
  pipReturncode : Int

/-- What one run of `install_library` did: the `error_messages` list it
returns and the argument lists of the `subprocess.run` calls it made. -/
structure InstallResult where
  errors : List (String × Nat)
  pipCalls : List (List String)
deriving DecidableEq, Repr

/-- `Err.1` message. -/
def errMess1 : String := "Err.1: Cannot connect to Internet. Blocked by firewall?"

/-- `Err.21` message. -/
def errMess21 : String := "Err.21: Cannot modify to Blender Python folder. Need Admin rights?"

/-- `Err.22` message. -/
def errMess22 : String := "Err.22: Cannot write to Blender Python folder. Need Admin rights?"

/-- `Err.23` message. -/
def errMess23 : String := "Err.23: Has access but cannot write to Blender Python folder. Need Admin rights?"

/-- `Err.3` message. -/
def errMess3 (lib_name : String) : String :=
  "Err.3: Library " ++ lib_name ++ " installed but cannot be imported"

/-- `Err.4` message. -/
def errMess4 (lib_name : String) : String :=
  "Err.4: Library " ++ lib_name ++ " cannot be downloaded"

/-- `Err.5` message. -/
def errMess5 (lib_name : String) : String :=
  "Err.5: Error during installation of library " ++ lib_name

/-- `Err.6` message. -/
def errMess6 (lib_name : String) : String :=
  "Err.6: Error during installation of library " ++ lib_name

/-- The argument list handed to `subprocess.run` by `install_library`. -/
def pipArgs (pyExeFile : String) (pip_timeout pip_retries : Int) (package : String) :
    List String :=
  [pyExeFile, "-m", "pip", "--default-timeout", toString pip_timeout,
   "--retries", toString pip_retries, "install", package, "--ignore-installed"]

/-- The `if not is_admin():` block of `install_library`: the read/write
probe on the site-packages directory.  Returns `some` error pair when the
block returns early, `none` when control reaches the pip invocation. -/
def permissionProbe (env : InstallEnv) : Option (String × Nat) :=
  if env.isAdmin then none
  else if env.tmpFileExists && ! env.removeSucceeds then some (errMess21, 21)
  else if ! env.dirWritable then
    if ! env.createSucceeds then some (errMess22, 22) else none
  else
    if ! env.createSucceeds then some (errMess23, 23) else none

/-- The `try`/`except subprocess.CalledProcessError` block of
`install_library`: run pip (after clamping a non-positive timeout to 100),
then dispatch on the return code.  `check_returncode()` raises
`CalledProcessError` carrying the (non-zero) return code, which the
`except` clause turns into `Err.5`/`Err.6` by testing that return code
against 0. -/
def pipPhase (env : InstallEnv) (lib_names : String × String)
    (pip_retries pip_timeout : Int) : InstallResult :=
  let lib_name := lib_names.1
  let pip_timeout' : Int := if 0 ≥ pip_timeout then 100 else pip_timeout
  let args := pipArgs env.pyExeFile pip_timeout' pip_retries lib_names.2
  if env.pipReturncode = 0 then
    if env.canImportAfter then { errors := [], pipCalls := [args] }
    else { errors := [(errMess3 lib_name, 3)], pipCalls := [args] }
  else
    -- `Err.4` is appended, then `check_returncode()` raises
    -- `CalledProcessError` with `ex.returncode = env.pipReturncode ≠ 0`,
    -- so the handler appends `Err.6` (the `Err.5` branch needs
    -- `ex.returncode == 0`).
    { errors := [(errMess4 lib_name, 4), (errMess6 lib_name, 6)], pipCalls := [args] }

/-- `install_library` from `install_dependencies.py`.  `Except.error ()`
models an exception propagating out of the function (only the network
probe can raise one that is not caught). -/
def install_library (env : InstallEnv) (lib_names : String × String)
    (pip_retries pip_timeout : Int) : Except Unit InstallResult :=
  if env.canImportBefore then Except.ok { errors := [], pipCalls := [] }
  else
    match (internet_on env.platform env.probe).1 with
    | Except.error e => Except.error e
    | Except.ok false => Except.ok { errors := [(errMess1, 1)], pipCalls := [] }
    | Except.ok true =>
      match permissionProbe env with
      | some err => Except.ok { errors := [err], pipCalls := [] }
      | none => Except.ok (pipPhase env lib_names pip_retries pip_timeout)

/-- `install_dependencies` from `install_dependencies.py`.  `envOf` gives
the environment each `install_library` call runs in.  On success the
result is `(return code, message written to the preferences panel field,
libraries attempted in order)`. -/
def install_dependencies (envOf : String × String → InstallEnv)
    (deps : List (String × String)) (retries timeout : Int) :
    Except Unit (Nat × Option String × List (String × String)) :=
  match deps with
  | [] => Except.ok (0, none, [])
  | lib :: rest =>
    match install_library (envOf lib) lib retries timeout with
    | Except.error e => Except.error e
    | Except.ok res =>
      match res.errors with
      | [] =>
        match install_dependencies envOf rest retries timeout with
        | Except.error e => Except.error e
        | Except.ok (c, m, att) => Except.ok (c, m, lib :: att)
      | (mess, code) :: _ => Except.ok (code, some mess, [lib])

/-! ## Render-lifecycle handler registration (`stampInfoSettings.py`) -/

/-- Number of occurrences of `f` in a handler list. -/
def countOcc {H : Type} [DecidableEq H] (f : H) : List H → Nat
  | [] => 0
  | g :: l => (if g = f then 1 else 0) + countOcc f l

/-- Modelled from the spec: `utils_handlers.removeAllHandlerOccurences`
(from `stampinfo/utils/utils_handlers.py`, not among the provided source
files) removes every occurrence of the callable `f` from the given
event-handler list, per the spec sentence that components
"append/remove callables on four render-lifecycle event lists". -/
def removeAllHandlerOccurences {H : Type} [DecidableEq H] (f : H)
    (handlerCateg : List H) : List H :=
  handlerCateg.filter (fun g => decide (g ≠ f))

/-- The four render-lifecycle handler callables of the add-on
(`handlers.uas_stampinfo_render*Handler`). -/
structure HandlerFuncs (H : Type) where
  renderInitHandler : H
  renderPreHandler : H
  renderCompleteHandler : H
  renderCancelHandler : H

/-- The four host event-handler lists
(`bpy.app.handlers.render_init/render_pre/render_complete/render_cancel`). -/
structure HandlerLists (H : Type) where
  render_init : List H
  render_pre : List H
  render_complete : List H
  render_cancel : List H

/-- `clearRenderHandlers` from `stampInfoSettings.py`: remove all
occurrences of each of the four handlers from its list. -/
def clearRenderHandlers {H : Type} [DecidableEq H] (hf : HandlerFuncs H)
    (ls : HandlerLists H) : HandlerLists H :=
  { render_init := removeAllHandlerOccurences hf.renderInitHandler ls.render_init
    render_pre := removeAllHandlerOccurences hf.renderPreHandler ls.render_pre
    render_complete := removeAllHandlerOccurences hf.renderCompleteHandler ls.render_complete
    render_cancel := removeAllHandlerOccurences hf.renderCancelHandler ls.render_cancel }

/-- `registerRenderHandlers` from `stampInfoSettings.py`: first
`clearRenderHandlers`, then append each handler to its list. -/
def registerRenderHandlers {H : Type} [DecidableEq H] (hf : HandlerFuncs H)
    (ls : HandlerLists H) : HandlerLists H :=
  let cleared := clearRenderHandlers hf ls
  { render_init := cleared.render_init ++ [hf.renderInitHandler]
    render_pre := cleared.render_pre ++ [hf.renderPreHandler]
    render_complete := cleared.render_complete ++ [hf.renderCompleteHandler]
    render_cancel := cleared.render_cancel ++ [hf.renderCancelHandler] }

/-! ## Concrete environments used as inputs in proofs -/

/-- A baseline environment: Linux, network reachable, everything
succeeds, module importable after install, pip exits 0. -/
def baseEnv : InstallEnv where
  platform := Platform.linux
  probe := fun _ => ProbeOutcome.ok
  pyExeFile := "python"
  canImportBefore := false
  canImportAfter := true
  isAdmin := true
  tmpFileExists := false
  removeSucceeds := true
  dirWritable := true
  createSucceeds := true
  pipReturncode := 0

/-- Environment where every network probe raises `URLError`. -/
def envNoNet : InstallEnv := { baseEnv with probe := fun _ => ProbeOutcome.urlError }

/-- Environment where pip exits 0 but the module still cannot be imported. -/
def envUnimportable : InstallEnv := { baseEnv with canImportAfter := false }

/-- Environment where pip exits with a non-zero return code. -/
def envPipFail : InstallEnv := { baseEnv with pipReturncode := 1 }

/-- Non-admin environment where the pre-existing marker file cannot be
deleted. -/
def envNoRemove : InstallEnv :=
  { baseEnv with isAdmin := false, tmpFileExists := true, removeSucceeds := false }

/-- Non-admin environment where the directory reports no write access and
the marker file cannot be created. -/
def envNoWrite : InstallEnv :=
  { baseEnv with isAdmin := false, dirWritable := false, createSucceeds := false }

/-- Non-admin environment where the directory reports write access but
the marker file still cannot be created. -/
def envAccessNoWrite : InstallEnv :=
  { baseEnv with isAdmin := false, dirWritable := true, createSucceeds := false }

/-- macOS environment; every probe outcome is a non-URLError exception,
which would propagate if the probe were ever consulted. -/
def envDarwin : InstallEnv :=
  { baseEnv with platform := Platform.darwin, probe := fun _ => ProbeOutcome.otherError }

/-- Environment map used when exercising `install_dependencies`: every
library sees the no-network environment. -/
def envOfNoNet : String × String → InstallEnv := fun _ => envNoNet

/-- A probe for which every attempt fails with `URLError`. -/
def probeAllUrlError : Nat → ProbeOutcome := fun _ => ProbeOutcome.urlError

/-- An existing directory holding one unlocked plain file. -/
def folderW : FolderState :=
  { present := true, entries := [Entry.file "frame.png" false] }

/-! ## Helper lemmas -/

/-- `countOcc` distributes over append. -/
theorem countOcc_append {H : Type} [DecidableEq H] (f : H) (l₁ l₂ : List H) :
    countOcc f (l₁ ++ l₂) = countOcc f l₁ + countOcc f l₂ := by
  induction l₁ with
  | nil => simp [countOcc]
  | cons g l ih => simp [countOcc, ih, Nat.add_assoc]

/-- After `removeAllHandlerOccurences f`, `f` no longer occurs. -/
theorem countOcc_removeAll {H : Type} [DecidableEq H] (f : H) (l : List H) :
    countOcc f (removeAllHandlerOccurences f l) = 0 := by
  induction l with
  | nil => simp [removeAllHandlerOccurences, countOcc]
  | cons g l ih =>
    by_cases hg : g = f <;>
      simp [removeAllHandlerOccurences, List.filter, hg, countOcc] <;>
      simpa [removeAllHandlerOccurences] using ih

/-! ## Claim theorems: utilities and handlers -/

/-- Claim C8: `open_folder` dispatches on the platform: on macOS it
invokes `open`, on Linux `xdg-open`, on Windows `explorer`; on any other
platform it does nothing. -/
theorem open_folder_dispatch (path : String) :
    open_folder Platform.darwin path = some (Invocation.checkCall ["open", "--", path]) ∧
    open_folder Platform.linux path = some (Invocation.checkCall ["xdg-open", path]) ∧
    open_folder Platform.win32 path = some (Invocation.popen ("explorer \"" ++ path ++ "\"")) ∧
    ∀ s : String, open_folder (Platform.other s) path = none := by
  refine ⟨rfl, rfl, rfl, fun s => ?_⟩
  simp [open_folder]

/-- Claim C10: `registerRenderHandlers` first removes every occurrence of
each of the four render-lifecycle handlers from its event list and then
appends it, so after any call each handler occurs exactly once in its
list, whatever the previous state was. -/
theorem registerRenderHandlers_exactly_once {H : Type} [DecidableEq H]
    (hf : HandlerFuncs H) (ls : HandlerLists H) :
    countOcc hf.renderInitHandler (clearRenderHandlers hf ls).render_init = 0 ∧
    countOcc hf.renderPreHandler (clearRenderHandlers hf ls).render_pre = 0 ∧
    countOcc hf.renderCompleteHandler (clearRenderHandlers hf ls).render_complete = 0 ∧
    countOcc hf.renderCancelHandler (clearRenderHandlers hf ls).render_cancel = 0 ∧
    countOcc hf.renderInitHandler (registerRenderHandlers hf ls).render_init = 1 ∧
    countOcc hf.renderPreHandler (registerRenderHandlers hf ls).render_pre = 1 ∧
    countOcc hf.renderCompleteHandler (registerRenderHandlers hf ls).render_complete = 1 ∧
    countOcc hf.renderCancelHandler (registerRenderHandlers hf ls).render_cancel = 1 := by
  simp [registerRenderHandlers, clearRenderHandlers, countOcc_append,
    countOcc_removeAll, countOcc]

/-- Claim C7 counterexample: a directory whose only entry is a
subdirectory survives `delete_folder` together with its content, because
`os.remove` fails on directories and the failure is swallowed. -/
theorem delete_folder_subdir_survives :
    (delete_folder { present := true, entries := [Entry.dir "sub"] }).present = true ∧
    Entry.dir "sub" ∈ (delete_folder { present := true, entries := [Entry.dir "sub"] }).entries := by
  constructor <;> simp [delete_folder, Entry.removable, List.filter]

/-- Claim C7 (amended): on an existing directory, `delete_folder` removes
exactly the top-level entries on which `os.remove` succeeds (unlocked
plain files); the directory itself disappears exactly when no entry
remains; in particular when every entry is an unlocked plain file, the
directory and all its contents are gone. -/
theorem delete_folder_spec (st : FolderState) (h : st.present = true) :
    (delete_folder st).entries = st.entries.filter (fun e => ! e.removable) ∧
    ((delete_folder st).present = false ↔ st.entries.filter (fun e => ! e.removable) = []) ∧
    ((∀ e ∈ st.entries, e.removable = true) →
      delete_folder st = { present := false, entries := [] }) := by
  unfold delete_folder
  rw [if_pos h]
  by_cases he : st.entries.filter (fun e => ! e.removable) = []
  · refine ⟨by simp [he], by simp [he], fun _ => by simp [he]⟩
  · refine ⟨by simp [List.isEmpty_iff, he], by simp [List.isEmpty_iff, he], fun hall => ?_⟩
    exfalso
    apply he
    rw [List.filter_eq_nil_iff]
    intro e hem
    simp [hall e hem]

/-- Claim C6: away from macOS, `internet_on` walks the timeout ladder
1, 5, 10, 15 in order (its attempt trace is a prefix of that list, so at
most four attempts are made), returns `True` as soon as one attempt
succeeds, and returns `False` exactly when all four attempts fail with a
`URLError`. -/
theorem internet_on_ladder (p : Platform) (probe : Nat → ProbeOutcome)
    (hp : p ≠ Platform.darwin) :
    (internet_on p probe).2 <+: internetTimeouts ∧
    ((internet_on p probe).1 = Except.ok true ↔
      probe 1 = ProbeOutcome.ok ∨
      (probe 1 = ProbeOutcome.urlError ∧
        (probe 5 = ProbeOutcome.ok ∨
          (probe 5 = ProbeOutcome.urlError ∧
            (probe 10 = ProbeOutcome.ok ∨
              (probe 10 = ProbeOutcome.urlError ∧ probe 15 = ProbeOutcome.ok)))))) ∧
    ((internet_on p probe).1 = Except.ok false ↔
      probe 1 = ProbeOutcome.urlError ∧ probe 5 = ProbeOutcome.urlError ∧
      probe 10 = ProbeOutcome.urlError ∧ probe 15 = ProbeOutcome.urlError) := by
  have hne : ¬ (p = Platform.darwin) := hp
  unfold internet_on internetTimeouts
  rw [if_neg hne]
  cases h1 : probe 1 <;> cases h5 : probe 5 <;> cases h10 : probe 10 <;> cases h15 : probe 15 <;>
    refine ⟨?_, ?_, ?_⟩ <;>
    simp [internet_on_go, h1, h5, h10, h15]

/-! ## Helper lemmas on the installer -/

/-- The permission probe can only stop with one of the three permission
error pairs. -/
theorem permissionProbe_some_cases (env : InstallEnv) (err : String × Nat)
    (h : permissionProbe env = some err) :
    err = (errMess21, 21) ∨ err = (errMess22, 22) ∨ err = (errMess23, 23) := by
  unfold permissionProbe at h
  split at h
  · exact absurd h (by simp)
  · split at h
    · exact Or.inl (Option.some.inj h).symm
    · split at h
      · split at h
        · exact Or.inr (Or.inl (Option.some.inj h).symm)
        · exact absurd h (by simp)
      · split at h
        · exact Or.inr (Or.inr (Option.some.inj h).symm)
        · exact absurd h (by simp)

/-- The errors produced by the pip phase, by case on the return code and
the post-install import check. -/
theorem pipPhase_errors (env : InstallEnv) (lib : String × String) (r t : Int) :
    (pipPhase env lib r t).errors =
      if env.pipReturncode = 0 then
        if env.canImportAfter then [] else [(errMess3 lib.1, 3)]
      else [(errMess4 lib.1, 4), (errMess6 lib.1, 6)] := by
  unfold pipPhase
  by_cases h0 : env.pipReturncode = 0 <;> cases hA : env.canImportAfter <;> simp [h0, hA]

/-- The pip phase always makes exactly one subprocess call, with the
timeout clamped to 100 when the caller-supplied one is not positive. -/
theorem pipPhase_pipCalls (env : InstallEnv) (lib : String × String) (r t : Int) :
    (pipPhase env lib r t).pipCalls =
      [pipArgs env.pyExeFile (if 0 ≥ t then 100 else t) r lib.2] := by
  unfold pipPhase
  by_cases h0 : env.pipReturncode = 0 <;> cases hA : env.canImportAfter <;> simp [h0, hA]

/-- When the module is missing, the network probe succeeds and the
permission probe passes, `install_library` runs the pip phase. -/
theorem install_library_reaches_pip (env : InstallEnv) (lib : String × String)
    (r t : Int) (hci : env.canImportBefore = false)
    (hnet : (internet_on env.platform env.probe).1 = Except.ok true)
    (hperm : permissionProbe env = none) :
    install_library env lib r t = Except.ok (pipPhase env lib r t) := by
  simp [install_library, hci, hnet, hperm]

/-- When the module is missing, the network probe succeeds and the
permission probe stops with an error, `install_library` returns exactly
that error and makes no subprocess call. -/
theorem install_library_perm_stop (env : InstallEnv) (lib : String × String)
    (r t : Int) (err : String × Nat) (hci : env.canImportBefore = false)
    (hnet : (internet_on env.platform env.probe).1 = Except.ok true)
    (hperm : permissionProbe env = some err) :
    install_library env lib r t = Except.ok { errors := [err], pipCalls := [] } := by
  simp [install_library, hci, hnet, hperm]

/-- Every error pair `install_library` can return is one of the seven
pairs of the taxonomy. -/
theorem install_library_errors_mem (env : InstallEnv) (lib : String × String)
    (r t : Int) (res : InstallResult)
    (h : install_library env lib r t = Except.ok res)
    (e : String × Nat) (he : e ∈ res.errors) :
    e = (errMess1, 1) ∨ e = (errMess3 lib.1, 3) ∨ e = (errMess4 lib.1, 4) ∨
    e = (errMess6 lib.1, 6) ∨ e = (errMess21, 21) ∨ e = (errMess22, 22) ∨
    e = (errMess23, 23) := by
  unfold install_library at h
  cases hci : env.canImportBefore with
  | true =>
    rw [hci] at h
    simp at h
    rw [← h] at he
    simp at he
  | false =>
    rw [hci] at h
    simp at h
    rcases hi : (internet_on env.platform env.probe).1 with e2 | b
    · rw [hi] at h; simp at h
    · rw [hi] at h
      cases b with
      | false =>
        simp at h
        rw [← h] at he
        simp at he
        exact Or.inl he
      | true =>
        simp at h
        rcases hperm : permissionProbe env with _ | err
        · rw [hperm] at h
          simp at h
          rw [← h, pipPhase_errors] at he
          by_cases h0 : env.pipReturncode = 0
          · cases hA : env.canImportAfter with
            | true => simp [h0, hA] at he
            | false =>
              simp [h0, hA] at he
              exact Or.inr (Or.inl he)
          · simp [h0] at he
            rcases he with he | he
            · exact Or.inr (Or.inr (Or.inl he))
            · exact Or.inr (Or.inr (Or.inr (Or.inl he)))
        · rw [hperm] at h
          simp at h
          rw [← h] at he
          simp at he
          subst he
          rcases permissionProbe_some_cases env _ hperm with h21 | h22 | h23
          · exact Or.inr (Or.inr (Or.inr (Or.inr (Or.inl h21))))
          · exact Or.inr (Or.inr (Or.inr (Or.inr (Or.inr (Or.inl h22)))))
          · exact Or.inr (Or.inr (Or.inr (Or.inr (Or.inr (Or.inr h23)))))

/-- Error code 1 cannot be produced when the network probe reports the
internet reachable. -/
theorem no_code1_of_internet (env : InstallEnv) (lib : String × String)
    (r t : Int) (res : InstallResult)
    (hnet : (internet_on env.platform env.probe).1 = Except.ok true)
    (h : install_library env lib r t = Except.ok res) (m : String) :
    (m, 1) ∉ res.errors := by
  intro hm
  unfold install_library at h
  cases hci : env.canImportBefore with
  | true =>
    rw [hci] at h
    simp at h
    rw [← h] at hm
    simp at hm
  | false =>
    rw [hci] at h
    simp at h
    rw [hnet] at h
    rcases hperm : permissionProbe env with _ | err
    · rw [hperm] at h
      simp at h
      rw [← h, pipPhase_errors] at hm
      by_cases h0 : env.pipReturncode = 0
      · cases hA : env.canImportAfter with
        | true => simp [h0, hA] at hm
        | false => simp [h0, hA, Prod.ext_iff] at hm
      · simp [h0, Prod.ext_iff] at hm
    · rw [hperm] at h
      simp at h
      rw [← h] at hm
      simp at hm
      rcases permissionProbe_some_cases env err hperm with h21 | h22 | h23 <;>
        rw [← hm] at * <;> simp_all

/-! ## Claim theorems: the installer -/

/-- Claim C2 (amended): when the module is not importable, the internet
probe succeeds and the permission checks pass, `install_library` invokes
pip exactly once with the argument list
`python -m pip --default-timeout T --retries R install package
--ignore-installed`, where R is the caller-supplied retry count and T is
the caller-supplied timeout when it is positive and 100 otherwise. -/
theorem install_library_pip_invocation (env : InstallEnv) (lib : String × String)
    (r t : Int) (hci : env.canImportBefore = false)
    (hnet : (internet_on env.platform env.probe).1 = Except.ok true)
    (hperm : permissionProbe env = none) :
    ∃ res, install_library env lib r t = Except.ok res ∧
      res.pipCalls = [pipArgs env.pyExeFile (if 0 ≥ t then 100 else t) r lib.2] :=
  ⟨pipPhase env lib r t, install_library_reaches_pip env lib r t hci hnet hperm,
    pipPhase_pipCalls env lib r t⟩

/-- Claim C2 counterexample: with the caller-supplied timeout -100 (the
default), pip is invoked with `--default-timeout 100`, not with the
caller-supplied value. -/
theorem install_library_pip_invocation_not_caller_timeout :
    install_library baseEnv ("PIL", "pillow") 2 (-100) =
      Except.ok { errors := [], pipCalls := [pipArgs "python" 100 2 "pillow"] } ∧
    pipArgs "python" 100 2 "pillow" ≠ pipArgs "python" (-100) 2 "pillow" :=
  ⟨rfl, by decide⟩

/-- Claim C3: once the pip subprocess has run, exit code 0 plus a
successful import records no error; exit code 0 with the module still
unimportable records exactly `(Err.3 message, 3)`; a non-zero exit code
records failures (codes 4 and then 6) and never an empty error list. -/
theorem install_library_pip_outcome (env : InstallEnv) (lib : String × String)
    (r t : Int) (hci : env.canImportBefore = false)
    (hnet : (internet_on env.platform env.probe).1 = Except.ok true)
    (hperm : permissionProbe env = none) :
    ∃ res, install_library env lib r t = Except.ok res ∧
      (env.pipReturncode = 0 → env.canImportAfter = true → res.errors = []) ∧
      (env.pipReturncode = 0 → env.canImportAfter = false →
        res.errors = [(errMess3 lib.1, 3)]) ∧
      (env.pipReturncode ≠ 0 →
        res.errors = [(errMess4 lib.1, 4), (errMess6 lib.1, 6)] ∧
        res.errors ≠ [] ∧ ∀ e ∈ res.errors, e.2 ≠ 0) := by
  have herr := pipPhase_errors env lib r t
  refine ⟨pipPhase env lib r t,
    install_library_reaches_pip env lib r t hci hnet hperm, ?_, ?_, ?_⟩
  · intro h0 hA
    simp [herr, h0, hA]
  · intro h0 hA
    simp [herr, h0, hA]
  · intro h0
    have h46 : (pipPhase env lib r t).errors =
        [(errMess4 lib.1, 4), (errMess6 lib.1, 6)] := by
      simp [herr, h0]
    refine ⟨h46, by simp [h46], ?_⟩
    intro e hee
    rw [h46] at hee
    simp only [List.mem_cons, List.mem_singleton] at hee
    rcases hee with hee | hee | hee <;> first
      | subst hee; simp
      | simp at hee

/-- Claim C5: without admin rights (module missing, internet reachable),
a pre-existing marker file that cannot be deleted yields error 21, a
failed marker-file creation yields error 22 when the directory reports no
write access and error 23 when it does, and in all three cases the
function returns without invoking pip. -/
theorem install_library_permission_errors (env : InstallEnv) (lib : String × String)
    (r t : Int) (hadmin : env.isAdmin = false)
    (hci : env.canImportBefore = false)
    (hnet : (internet_on env.platform env.probe).1 = Except.ok true) :
    (env.tmpFileExists = true → env.removeSucceeds = false →
      install_library env lib r t =
        Except.ok { errors := [(errMess21, 21)], pipCalls := [] }) ∧
    ((env.tmpFileExists = false ∨ env.removeSucceeds = true) →
      env.dirWritable = false → env.createSucceeds = false →
      install_library env lib r t =
        Except.ok { errors := [(errMess22, 22)], pipCalls := [] }) ∧
    ((env.tmpFileExists = false ∨ env.removeSucceeds = true) →
      env.dirWritable = true → env.createSucceeds = false →
      install_library env lib r t =
        Except.ok { errors := [(errMess23, 23)], pipCalls := [] }) := by
  refine ⟨?_, ?_, ?_⟩
  · intro hT hR
    have hperm : permissionProbe env = some (errMess21, 21) := by
      simp [permissionProbe, hadmin, hT, hR]
    exact install_library_perm_stop env lib r t _ hci hnet hperm
  · intro hTR hW hC
    have hperm : permissionProbe env = some (errMess22, 22) := by
      rcases hTR with hT | hR
      · simp [permissionProbe, hadmin, hT, hW, hC]
      · simp [permissionProbe, hadmin, hR, hW, hC]
    exact install_library_perm_stop env lib r t _ hci hnet hperm
  · intro hTR hW hC
    have hperm : permissionProbe env = some (errMess23, 23) := by
      rcases hTR with hT | hR
      · simp [permissionProbe, hadmin, hT, hW, hC]
      · simp [permissionProbe, hadmin, hR, hW, hC]
    exact install_library_perm_stop env lib r t _ hci hnet hperm

/-- Claim C4 (amended): every error pair `install_library` can surface
carries a code in 1–6 or 21–23 paired with its fixed message; the codes
1, 3, 4, 6, 21, 22 and 23 are each reachable (a non-zero pip exit
surfaces 4 and 6 together); code 5 is never surfaced. -/
theorem install_library_error_taxonomy (env : InstallEnv) (lib : String × String)
    (r t : Int) (res : InstallResult)
    (h : install_library env lib r t = Except.ok res) :
    (∀ e ∈ res.errors,
      ((1 ≤ e.2 ∧ e.2 ≤ 6) ∨ (21 ≤ e.2 ∧ e.2 ≤ 23)) ∧ e.2 ≠ 5 ∧
      (e = (errMess1, 1) ∨ e = (errMess3 lib.1, 3) ∨ e = (errMess4 lib.1, 4) ∨
       e = (errMess6 lib.1, 6) ∨ e = (errMess21, 21) ∨ e = (errMess22, 22) ∨
       e = (errMess23, 23))) ∧
    install_library envNoNet ("PIL", "pillow") 2 100 =
      Except.ok { errors := [(errMess1, 1)], pipCalls := [] } ∧
    install_library envUnimportable ("PIL", "pillow") 2 100 =
      Except.ok { errors := [(errMess3 "PIL", 3)],
                  pipCalls := [pipArgs "python" 100 2 "pillow"] } ∧
    install_library envPipFail ("PIL", "pillow") 2 100 =
      Except.ok { errors := [(errMess4 "PIL", 4), (errMess6 "PIL", 6)],
                  pipCalls := [pipArgs "python" 100 2 "pillow"] } ∧
    install_library envNoRemove ("PIL", "pillow") 2 100 =
      Except.ok { errors := [(errMess21, 21)], pipCalls := [] } ∧
    install_library envNoWrite ("PIL", "pillow") 2 100 =
      Except.ok { errors := [(errMess22, 22)], pipCalls := [] } ∧
    install_library envAccessNoWrite ("PIL", "pillow") 2 100 =
      Except.ok { errors := [(errMess23, 23)], pipCalls := [] } := by
  refine ⟨?_, rfl, rfl, rfl, rfl, rfl, rfl⟩
  intro e he
  rcases install_library_errors_mem env lib r t res h e he with
    h1 | h1 | h1 | h1 | h1 | h1 | h1 <;> subst h1 <;>
    exact ⟨by norm_num, by norm_num, by simp⟩

/-- Claim C4 counterexample: the code-5 variant is not a reachable
outcome of `install_library`: no environment and input make it surface an
error pair with code 5 (the `CalledProcessError` handler only sees
non-zero return codes). -/
theorem install_library_code5_unreachable :
    ¬ ∃ (env : InstallEnv) (lib : String × String) (r t : Int)
        (res : InstallResult) (m : String),
      install_library env lib r t = Except.ok res ∧ (m, 5) ∈ res.errors := by
  rintro ⟨env, lib, r, t, res, m, h, hm⟩
  rcases install_library_errors_mem env lib r t res h (m, 5) hm with
    h1 | h1 | h1 | h1 | h1 | h1 | h1 <;> simp [Prod.ext_iff] at h1

/-- Claim C9: on macOS, `internet_on` returns `True` without consulting
the probe, so `install_library` can never surface the no-internet error
code 1. -/
theorem install_library_darwin_no_code1 (env : InstallEnv) (lib : String × String)
    (r t : Int) (res : InstallResult)
    (hplat : env.platform = Platform.darwin)
    (h : install_library env lib r t = Except.ok res) :
    internet_on env.platform env.probe = (Except.ok true, []) ∧
    ∀ m : String, (m, 1) ∉ res.errors := by
  have hnet : internet_on env.platform env.probe = (Except.ok true, []) := by
    simp [internet_on, hplat]
  exact ⟨hnet, fun m =>
    no_code1_of_internet env lib r t res (by rw [hnet]) h m⟩

/-- Claim C1: `install_dependencies` stops at the first library whose
installation produces an error: only the libraries up to and including it
are attempted, the first error pair of that library gives the message
written to the preferences panel field and the returned code (which is
positive), and 0 is returned exactly when no library produces an error. -/
theorem install_dependencies_first_error
    (envOf : String × String → InstallEnv) (deps : List (String × String))
    (retries timeout : Int) (c : Nat) (m : Option String)
    (att : List (String × String))
    (h : install_dependencies envOf deps retries timeout = Except.ok (c, m, att)) :
    (c = 0 ↔ ∀ lib ∈ deps, ∃ res, install_library (envOf lib) lib retries timeout =
        Except.ok res ∧ res.errors = []) ∧
    (c = 0 → m = none ∧ att = deps) ∧
    (c ≠ 0 → 0 < c ∧ ∃ pre lib post, deps = pre ++ lib :: post ∧
      (∀ l ∈ pre, ∃ res, install_library (envOf l) l retries timeout =
          Except.ok res ∧ res.errors = []) ∧
      att = pre ++ [lib] ∧
      ∃ mess rest2 res,
        install_library (envOf lib) lib retries timeout = Except.ok res ∧
        res.errors = (mess, c) :: rest2 ∧ m = some mess) := by
  induction deps generalizing c m att with
  | nil =>
    unfold install_dependencies at h
    simp at h
    obtain ⟨rfl, rfl, rfl⟩ := h
    exact ⟨by simp, fun _ => ⟨rfl, rfl⟩, fun hc => absurd rfl hc⟩
  | cons lib rest ih =>
    unfold install_dependencies at h
    cases hL : install_library (envOf lib) lib retries timeout with
    | error e =>
      rw [hL] at h
      simp at h
    | ok res =>
      rw [hL] at h
      dsimp only at h
      cases hE : res.errors with
      | nil =>
        rw [hE] at h
        cases hR : install_dependencies envOf rest retries timeout with
        | error e =>
          rw [hR] at h
          simp at h
        | ok trip =>
          obtain ⟨c2, m2, att2⟩ := trip
          rw [hR] at h
          simp at h
          obtain ⟨rfl, rfl, rfl⟩ := h
          obtain ⟨ih1, ih2, ih3⟩ := ih c2 m2 att2 hR
          refine ⟨?_, ?_, ?_⟩
          · constructor
            · intro hc0 l hl
              rcases List.mem_cons.mp hl with rfl | hl
              · exact ⟨res, hL, hE⟩
              · exact (ih1.mp hc0) l hl
            · intro hall
              exact ih1.mpr fun l hl => hall l (List.mem_cons_of_mem _ hl)
          · intro hc0
            obtain ⟨hm, hatt⟩ := ih2 hc0
            exact ⟨hm, by rw [hatt]⟩
          · intro hc0
            obtain ⟨hpos, pre, lib2, post, hsplit, hclean, hatt, mess, rest2, res2,
              hL2, hE2, hm⟩ := ih3 hc0
            refine ⟨hpos, lib :: pre, lib2, post, by simp [hsplit], ?_,
              by simp [hatt], mess, rest2, res2, hL2, hE2, hm⟩
            intro l hl
            rcases List.mem_cons.mp hl with rfl | hl
            · exact ⟨res, hL, hE⟩
            · exact hclean l hl
      | cons headE tailE =>
        obtain ⟨mess, code⟩ := headE
        rw [hE] at h
        simp at h
        obtain ⟨rfl, rfl, rfl⟩ := h
        have hmem : (mess, code) ∈ res.errors := by
          rw [hE]
          exact List.mem_cons_self _ _
        have hcode : code ≠ 0 := by
          rcases install_library_errors_mem (envOf lib) lib retries timeout res hL
            (mess, code) hmem with h1 | h1 | h1 | h1 | h1 | h1 | h1 <;>
            simp [Prod.ext_iff] at h1 <;> omega
        refine ⟨?_, fun hc0 => absurd hc0 hcode, fun _ => ?_⟩
        · constructor
          · intro hc0
            exact absurd hc0 hcode
          · intro hall
            exfalso
            obtain ⟨res2, hL2, hE2⟩ := hall lib (List.mem_cons_self _ _)
            rw [hL] at hL2
            have hrr : res = res2 := Except.ok.inj hL2
            rw [← hrr, hE] at hE2
            simp at hE2
        · exact ⟨Nat.pos_of_ne_zero hcode, [], lib, rest, rfl, by simp, rfl,
            mess, tailE, res, hL, hE, rfl⟩

/-! ## Witnesses -/

/-- Witness for the C6 theorem: Linux platform, every probe failing with
`URLError`. -/
theorem internet_on_ladder_witness :
    Platform.linux ≠ Platform.darwin ∧
    ((internet_on Platform.linux probeAllUrlError).2 <+: internetTimeouts) ∧
    ((internet_on Platform.linux probeAllUrlError).1 = Except.ok false ↔
      probeAllUrlError 1 = ProbeOutcome.urlError ∧
      probeAllUrlError 5 = ProbeOutcome.urlError ∧
      probeAllUrlError 10 = ProbeOutcome.urlError ∧
      probeAllUrlError 15 = ProbeOutcome.urlError) := by
  have h := internet_on_ladder Platform.linux probeAllUrlError (by decide)
  exact ⟨by decide, h.1, h.2.2⟩

/-- Witness for the C7 amended theorem on a directory with one unlocked
file. -/
theorem delete_folder_spec_witness :
    folderW.present = true ∧
    ((∀ e ∈ folderW.entries, e.removable = true) →
      delete_folder folderW = { present := false, entries := [] }) :=
  ⟨rfl, (delete_folder_spec folderW rfl).2.2⟩

/-- Witness for the C2 amended theorem at the positive caller-supplied
timeout 30. -/
theorem install_library_pip_invocation_witness :
    baseEnv.canImportBefore = false ∧
    (internet_on baseEnv.platform baseEnv.probe).1 = Except.ok true ∧
    permissionProbe baseEnv = none ∧
    ∃ res, install_library baseEnv ("PIL", "pillow") 2 30 = Except.ok res ∧
      res.pipCalls =
        [pipArgs baseEnv.pyExeFile (if 0 ≥ (30 : Int) then 100 else 30) 2 "pillow"] :=
  ⟨rfl, rfl, rfl,
    install_library_pip_invocation baseEnv ("PIL", "pillow") 2 30 rfl rfl rfl⟩

/-- Witness for the C3 theorem in the installed-but-unimportable
environment. -/
theorem install_library_pip_outcome_witness :
    envUnimportable.canImportBefore = false ∧
    (internet_on envUnimportable.platform envUnimportable.probe).1 = Except.ok true ∧
    permissionProbe envUnimportable = none ∧
    ∃ res, install_library envUnimportable ("PIL", "pillow") 2 100 = Except.ok res ∧
      (envUnimportable.pipReturncode = 0 → envUnimportable.canImportAfter = true →
        res.errors = []) ∧
      (envUnimportable.pipReturncode = 0 → envUnimportable.canImportAfter = false →
        res.errors = [(errMess3 "PIL", 3)]) ∧
      (envUnimportable.pipReturncode ≠ 0 →
        res.errors = [(errMess4 "PIL", 4), (errMess6 "PIL", 6)] ∧
        res.errors ≠ [] ∧ ∀ e ∈ res.errors, e.2 ≠ 0) :=
  ⟨rfl, rfl, rfl,
    install_library_pip_outcome envUnimportable ("PIL", "pillow") 2 100 rfl rfl rfl⟩

/-- Witness for the C5 theorem in the locked-marker-file environment. -/
theorem install_library_permission_errors_witness :
    envNoRemove.isAdmin = false ∧
    envNoRemove.canImportBefore = false ∧
    (internet_on envNoRemove.platform envNoRemove.probe).1 = Except.ok true ∧
    (envNoRemove.tmpFileExists = true → envNoRemove.removeSucceeds = false →
      install_library envNoRemove ("PIL", "pillow") 2 100 =
        Except.ok { errors := [(errMess21, 21)], pipCalls := [] }) :=
  ⟨rfl, rfl, rfl,
    (install_library_permission_errors envNoRemove ("PIL", "pillow") 2 100
      rfl rfl rfl).1⟩

/-- Witness for the C4 amended theorem in the no-internet environment. -/
theorem install_library_error_taxonomy_witness :
    install_library envNoNet ("PIL", "pillow") 2 100 =
      Except.ok { errors := [(errMess1, 1)], pipCalls := [] } ∧
    ∀ e ∈ ({ errors := [(errMess1, 1)], pipCalls := [] } : InstallResult).errors,
      ((1 ≤ e.2 ∧ e.2 ≤ 6) ∨ (21 ≤ e.2 ∧ e.2 ≤ 23)) ∧ e.2 ≠ 5 ∧
      (e = (errMess1, 1) ∨ e = (errMess3 "PIL", 3) ∨ e = (errMess4 "PIL", 4) ∨
       e = (errMess6 "PIL", 6) ∨ e = (errMess21, 21) ∨ e = (errMess22, 22) ∨
       e = (errMess23, 23)) :=
  ⟨rfl, (install_library_error_taxonomy envNoNet ("PIL", "pillow") 2 100
    { errors := [(errMess1, 1)], pipCalls := [] } rfl).1⟩

/-- Witness for the C9 theorem in the macOS environment. -/
theorem install_library_darwin_no_code1_witness :
    envDarwin.platform = Platform.darwin ∧
    install_library envDarwin ("PIL", "pillow") 2 100 =
      Except.ok { errors := [], pipCalls := [pipArgs "python" 100 2 "pillow"] } ∧
    internet_on envDarwin.platform envDarwin.probe = (Except.ok true, []) ∧
    ∀ m : String,
      (m, 1) ∉ ({ errors := [],
                  pipCalls := [pipArgs "python" 100 2 "pillow"] } : InstallResult).errors := by
  have h := install_library_darwin_no_code1 envDarwin ("PIL", "pillow") 2 100
    { errors := [], pipCalls := [pipArgs "python" 100 2 "pillow"] } rfl rfl
  exact ⟨rfl, rfl, h.1, h.2⟩

/-- Witness for the C1 theorem on a one-library list failing with the
no-internet error. -/
theorem install_dependencies_first_error_witness :
    install_dependencies envOfNoNet [("PIL", "pillow")] 2 100 =
      Except.ok (1, some errMess1, [("PIL", "pillow")]) ∧ 0 < 1 := by
  have h : install_dependencies envOfNoNet [("PIL", "pillow")] 2 100 =
      Except.ok (1, some errMess1, [("PIL", "pillow")]) := by rfl
  exact ⟨h, ((install_dependencies_first_error envOfNoNet [("PIL", "pillow")] 2 100 1
    (some errMess1) [("PIL", "pillow")] h).2.2 (by decide)).1⟩

end StampInfo
